import Mathlib

/-!
Verification of the question-generation core of TriviaBot (src/app.py).

The generators talk to three HTTP endpoints through the helper `get_json`,
which converts every exception raised during the request into `None`.  We
model the JSON world explicitly: a `Json` value type, Python truthiness,
Python `[]` / `.get` / iteration semantics with explicit `Except PyErr`
results, and the three endpoints as an `Env` of oracle responses (with
`none` standing for the exception path of `get_json`).  Randomness
(`random.choice`, `random.shuffle`) is supplied by an explicit `Rand`
oracle.  Every definition mirrors the corresponding lines of src/app.py.
-/

set_option maxHeartbeats 1000000
set_option maxRecDepth 10000

namespace TriviaBot

/-- JSON values as returned by the HTTP helper `get_json` (src/app.py lines 57-63).
Numbers are modelled as integers, which covers every payload the app inspects. -/
inductive Json where
  | null : Json
  | bool : Bool → Json
  | num : Int → Json
  | str : String → Json
  | arr : List Json → Json
  | obj : List (String × Json) → Json

/-- Python exceptions that can escape the generator bodies. -/
inductive PyErr where
  | keyError : String → PyErr
  | indexError : PyErr
  | typeError : PyErr
  | attributeError : PyErr
  | valueError : PyErr
  | binasciiError : PyErr
deriving DecidableEq

/-- Python truthiness of a JSON value (`if not data`, `if q and a`, ...). -/
def pyTruthy : Json → Bool
  | .null => false
  | .bool b => b
  | .num n => n != 0
  | .str s => s != ""
  | .arr xs => !xs.isEmpty
  | .obj kvs => !kvs.isEmpty

mutual

/-- Python `==` on JSON values; bool compares as the integers 0 and 1. -/
def pyEq : Json → Json → Bool
  | .null, .null => true
  | .bool a, .bool b => a == b
  | .bool a, .num b => (if a then (1 : Int) else 0) == b
  | .num a, .bool b => a == (if b then (1 : Int) else 0)
  | .num a, .num b => a == b
  | .str a, .str b => a == b
  | .arr a, .arr b => pyEqList a b
  | .obj a, .obj b => pyEqObj a b
  | _, _ => false

/-- Elementwise Python equality of JSON arrays. -/
def pyEqList : List Json → List Json → Bool
  | [], [] => true
  | x :: xs, y :: ys => pyEq x y && pyEqList xs ys
  | _, _ => false

/-- Entrywise Python equality of JSON objects (dict keys cannot repeat). -/
def pyEqObj : List (String × Json) → List (String × Json) → Bool
  | [], [] => true
  | (k, v) :: xs, (l, w) :: ys => k == l && pyEq v w && pyEqObj xs ys
  | _, _ => false

end

/-- Python `d[k]`: KeyError when the key is missing, TypeError when `d` is not
a dict (integer indexing of lists and strings is `pyIndex`). -/
def Json.getItem : Json → String → Except PyErr Json
  | .obj kvs, k =>
    match kvs.lookup k with
    | some v => .ok v
    | none => .error (.keyError k)
  | _, _ => .error .typeError

/-- Python `d.get(k)`: `None` default; AttributeError when `d` is not a dict. -/
def pyGet : Json → String → Except PyErr Json
  | .obj kvs, k => .ok ((kvs.lookup k).getD .null)
  | _, _ => .error .attributeError

/-- Python `d.get(k, default)`. -/
def pyGetD : Json → String → Json → Except PyErr Json
  | .obj kvs, k, d => .ok ((kvs.lookup k).getD d)
  | _, _, _ => .error .attributeError

/-- Python `xs[i]` for a non-negative index. -/
def pyIndex : Json → Nat → Except PyErr Json
  | .arr xs, i =>
    match xs.get? i with
    | some v => .ok v
    | none => .error .indexError
  | .str s, i =>
    match s.toList.get? i with
    | some ch => .ok (.str (String.mk [ch]))
    | none => .error .indexError
  | _, _ => .error .typeError

/-- Python `random.choice(xs)` driven by an explicit oracle index; IndexError
on an empty sequence. -/
def pyChoice {α : Type} (idx : Nat) : List α → Except PyErr α
  | [] => .error .indexError
  | x :: xs => .ok ((x :: xs).get ⟨idx % (xs.length + 1), Nat.mod_lt _ (Nat.succ_pos _)⟩)

/-- Python iteration over a JSON value (`for c in data`): arrays yield their
elements, dicts their keys, strings their one-character substrings. -/
def pyIter : Json → Except PyErr (List Json)
  | .arr xs => .ok xs
  | .obj kvs => .ok (kvs.map (fun kv => .str kv.1))
  | .str s => .ok (s.toList.map (fun ch => .str (String.mk [ch])))
  | _ => .error .typeError

/-- Python `x or n` for an integer literal default. -/
def pyOrInt (x : Json) (n : Int) : Json := if pyTruthy x then x else .num n

/-- Numeric view used by Python order comparisons (bool counts as 0 or 1). -/
def jsonNum? : Json → Option Int
  | .num n => some n
  | .bool b => some (if b then 1 else 0)
  | _ => none

/-- Python `a <= x` with an integer literal on the left; TypeError otherwise. -/
def pyLeIntJson (a : Int) (x : Json) : Except PyErr Bool :=
  match jsonNum? x with
  | some n => .ok (decide (a ≤ n))
  | none => .error .typeError

/-- Python `x < b` with an integer literal on the right; TypeError otherwise. -/
def pyLtJsonInt (x : Json) (b : Int) : Except PyErr Bool :=
  match jsonNum? x with
  | some n => .ok (decide (n < b))
  | none => .error .typeError

/-- Python `x >= a` with an integer literal on the right; TypeError otherwise. -/
def pyGeJsonInt (x : Json) (a : Int) : Except PyErr Bool :=
  match jsonNum? x with
  | some n => .ok (decide (a ≤ n))
  | none => .error .typeError

/-- Python `str()` as used in f-string interpolation. -/
def pyStr : Json → String
  | .null => "None"
  | .bool true => "True"
  | .bool false => "False"
  | .num n => toString n
  | .str s => s
  | .arr _ => "[...]"
  | .obj _ => "\x7b...\x7d"

/-- Index of a character in the standard base64 alphabet. -/
def b64Index? (ch : Char) : Option Nat :=
  if 'A' ≤ ch ∧ ch ≤ 'Z' then some (ch.toNat - 65)
  else if 'a' ≤ ch ∧ ch ≤ 'z' then some (ch.toNat - 97 + 26)
  else if '0' ≤ ch ∧ ch ≤ '9' then some (ch.toNat - 48 + 52)
  else if ch = '+' then some 62
  else if ch = '/' then some 63
  else none

/-- Decode 4-character base64 groups to bytes; `=` padding only in a final group. -/
def b64Groups : List Char → Except PyErr (List Nat)
  | [] => .ok []
  | c1 :: c2 :: c3 :: c4 :: rest =>
    match b64Index? c1, b64Index? c2 with
    | some a, some b =>
      if c3 = '=' ∧ c4 = '=' then
        if rest.isEmpty then .ok [a * 4 + b / 16] else .error .binasciiError
      else if c4 = '=' then
        match b64Index? c3 with
        | some c =>
          if rest.isEmpty then .ok [a * 4 + b / 16, (b % 16) * 16 + c / 4]
          else .error .binasciiError
        | none => .error .binasciiError
      else
        match b64Index? c3, b64Index? c4 with
        | some c, some d =>
          match b64Groups rest with
          | .ok bs => .ok ((a * 4 + b / 16) :: ((b % 16) * 16 + c / 4) :: ((c % 4) * 64 + d) :: bs)
          | .error e => .error e
        | _, _ => .error .binasciiError
    | _, _ => .error .binasciiError
  | _ => .error .binasciiError

/-- Model of Python `base64.b64decode` on a str with `validate=False`: reject
non-ASCII input, discard characters outside the alphabet, then decode strict
4-character groups (an incomplete final group is an incorrect-padding error). -/
def b64decode (s : String) : Except PyErr (List Nat) :=
  if s.toList.any (fun ch => 128 ≤ ch.toNat) then .error .valueError
  else
    let cs := s.toList.filter (fun ch => (b64Index? ch).isSome || ch = '=')
    if cs.length % 4 = 0 then b64Groups cs else .error .binasciiError

/-- Worker for the utf-8 decoder; the fuel argument only serves termination and
is always at least the byte count, so it never runs out before the bytes do. -/
def utf8IgnoreAux : Nat → List Nat → List Char
  | 0, _ => []
  | _, [] => []
  | fuel + 1, b :: rest =>
    if b < 128 then Char.ofNat b :: utf8IgnoreAux fuel rest
    else if 194 ≤ b ∧ b ≤ 223 then
      match rest with
      | b2 :: rest2 =>
        if 128 ≤ b2 ∧ b2 ≤ 191 then
          Char.ofNat ((b - 192) * 64 + (b2 - 128)) :: utf8IgnoreAux fuel rest2
        else utf8IgnoreAux fuel (b2 :: rest2)
      | [] => []
    else if 224 ≤ b ∧ b ≤ 239 then
      match rest with
      | b2 :: b3 :: rest3 =>
        if (128 ≤ b2 ∧ b2 ≤ 191) ∧ (128 ≤ b3 ∧ b3 ≤ 191) then
          let code := (b - 224) * 4096 + (b2 - 128) * 64 + (b3 - 128)
          if 2048 ≤ code ∧ (code < 55296 ∨ 57343 < code) then
            Char.ofNat code :: utf8IgnoreAux fuel rest3
          else utf8IgnoreAux fuel (b2 :: b3 :: rest3)
        else utf8IgnoreAux fuel (b2 :: b3 :: rest3)
      | other => utf8IgnoreAux fuel other
    else if 240 ≤ b ∧ b ≤ 244 then
      match rest with
      | b2 :: b3 :: b4 :: rest4 =>
        if (128 ≤ b2 ∧ b2 ≤ 191) ∧ (128 ≤ b3 ∧ b3 ≤ 191) ∧ (128 ≤ b4 ∧ b4 ≤ 191) then
          let code := (b - 240) * 262144 + (b2 - 128) * 4096 + (b3 - 128) * 64 + (b4 - 128)
          if 65536 ≤ code ∧ code ≤ 1114111 then Char.ofNat code :: utf8IgnoreAux fuel rest4
          else utf8IgnoreAux fuel (b2 :: b3 :: b4 :: rest4)
        else utf8IgnoreAux fuel (b2 :: b3 :: b4 :: rest4)
      | other => utf8IgnoreAux fuel other
    else utf8IgnoreAux fuel rest

/-- Model of `bytes.decode("utf-8", errors="ignore")`: well-formed sequences
decode, bytes that do not start a valid sequence are skipped. -/
def utf8Ignore (bs : List Nat) : List Char := utf8IgnoreAux bs.length bs

/-- Model of Python `html.unescape` restricted to the five commonest entities;
it covers every payload analysed here and maps a string to `""` only if the
string was `""`. -/
def unescapeChars : List Char → List Char
  | [] => []
  | '&' :: 'a' :: 'm' :: 'p' :: ';' :: rest => '&' :: unescapeChars rest
  | '&' :: 'l' :: 't' :: ';' :: rest => '<' :: unescapeChars rest
  | '&' :: 'g' :: 't' :: ';' :: rest => '>' :: unescapeChars rest
  | '&' :: 'q' :: 'u' :: 'o' :: 't' :: ';' :: rest => '"' :: unescapeChars rest
  | '&' :: '#' :: '3' :: '9' :: ';' :: rest => '\x27' :: unescapeChars rest
  | c :: rest => c :: unescapeChars rest

/-- Python `html.unescape` lifted to strings. -/
def htmlUnescape (s : String) : String := String.mk (unescapeChars s.toList)

/-- Python `base64.b64decode(x).decode("utf-8", errors="ignore")` where `x`
came out of a JSON payload: TypeError unless the field is a string. -/
def b64Field (x : Json) : Except PyErr String :=
  match x with
  | .str s =>
    match b64decode s with
    | .ok bs => .ok (String.mk (utf8Ignore bs))
    | .error e => .error e
  | _ => .error .typeError

/-- One entry of the difficulty-aligned generator pools built by
`pick_generator` (src/app.py lines 210-240); the string is the difficulty
argument baked into the corresponding lambda. -/
inductive GenTag where
  | opentdb : String → GenTag
  | capital : String → GenTag
  | fact : String → GenTag
  | lyric : GenTag
  | crossword : String → GenTag
deriving DecidableEq

/-- Behaviour of the external HTTP world: each field models `get_json` for one
endpoint, with `none` standing for its exception path (transport failure,
non-success HTTP status, or an undecodable body, src/app.py lines 57-63).
The wikipedia field is keyed by the raw topic string; `requests.utils.quote`
is injective on topics, so the quoting step is modelled away. -/
structure Env where
  opentdb : List (String × Json) → Option Json
  restcountries : Option Json
  wikipedia : String → Option Json

/-- Oracle for the `random` module: a shuffle for `random.shuffle(generators)`
and one index per `random.choice` call site. -/
structure Rand where
  shuffle : List GenTag → List GenTag
  capIdx : Nat
  factIdx : Nat
  musicIdx : Nat
  crosswordIdx : Nat

/-- DIFF_MAP (src/app.py lines 43-48). -/
def DIFF_MAP : List (String × String) :=
  [("Baby Barbara", "easy"), ("Average Joe", "medium"),
   ("College Carl", "hard"), ("PhD Pat", "expert")]

/-- Python `DIFF_MAP.get(label, "easy")` as used at lines 51 and 207. -/
def diffKeyOf (label : String) : String := (DIFF_MAP.lookup label).getD "easy"

/-- map_to_trivia_api (src/app.py lines 50-52). -/
def map_to_trivia_api (diff_label : String) : String :=
  let d := diffKeyOf diff_label
  if d = "expert" then "hard" else d

/-- Query parameters built by fetch_opentdb_question (src/app.py lines 66-70). -/
def opentdbParams (difficulty_api : String) (category : Option Int) : List (String × Json) :=
  let base := [("amount", Json.num 1), ("type", Json.str "multiple"), ("encode", Json.str "base64")]
  let withDiff :=
    if difficulty_api = "easy" ∨ difficulty_api = "medium" ∨ difficulty_api = "hard" then
      base ++ [("difficulty", Json.str difficulty_api)]
    else base
  match category with
  | some n => if n ≠ 0 then withDiff ++ [("category", Json.num n)] else withDiff
  | none => withDiff

/-- fetch_opentdb_question (src/app.py lines 65-79).  The question, answer and
category of the single result item are base64-decoded; the question and answer
are additionally HTML-unescaped, the category is returned as decoded. -/
def fetch_opentdb_question (env : Env) (difficulty_api : String) (category : Option Int) :
    Except PyErr (Json × Json × Json) :=
  match env.opentdb (opentdbParams difficulty_api category) with
  | none => .ok (.null, .null, .null)
  | some data =>
    if pyTruthy data = false then .ok (.null, .null, .null)
    else
      match pyGet data "response_code" with
      | .error e => .error e
      | .ok rc =>
        if pyEq rc (.num 0) = false then .ok (.null, .null, .null)
        else
          match data.getItem "results" with
          | .error e => .error e
          | .ok results =>
            match pyIndex results 0 with
            | .error e => .error e
            | .ok item =>
              match item.getItem "question" with
              | .error e => .error e
              | .ok qB =>
                match b64Field qB with
                | .error e => .error e
                | .ok q =>
                  match item.getItem "correct_answer" with
                  | .error e => .error e
                  | .ok aB =>
                    match b64Field aB with
                    | .error e => .error e
                    | .ok a =>
                      match item.getItem "category" with
                      | .error e => .error e
                      | .ok cB =>
                        match b64Field cB with
                        | .error e => .error e
                        | .ok cat =>
                          .ok (.str (htmlUnescape q), .str (htmlUnescape a), .str cat)

/-- easy_whitelist (src/app.py lines 91-95). -/
def easy_whitelist : List String :=
  ["United States", "Canada", "United Kingdom", "France", "Germany", "Italy", "Spain",
   "Japan", "Australia", "Brazil", "Mexico", "India", "China", "Russia", "South Africa",
   "Egypt", "Argentina", "Netherlands", "Sweden", "Norway", "Denmark", "Ireland"]

/-- Comprehension with a possibly-raising predicate, evaluated left to right. -/
def pyFilterM (p : Json → Except PyErr Bool) : List Json → Except PyErr (List Json)
  | [] => .ok []
  | x :: xs =>
    match p x with
    | .error e => .error e
    | .ok b =>
      match pyFilterM p xs with
      | .error e => .error e
      | .ok ys => .ok (if b then x :: ys else ys)

/-- Candidate filter of line 86: `isinstance(c.get("capital"), list) and c["capital"]`. -/
def isCapitalCandidate (c : Json) : Except PyErr Bool :=
  match pyGet c "capital" with
  | .error e => .error e
  | .ok cap =>
    match cap with
    | .arr _ =>
      match c.getItem "capital" with
      | .error e => .error e
      | .ok cap2 => .ok (pyTruthy cap2)
    | _ => .ok false

/-- Whitelist membership test of choose_easy (line 99):
`c["name"].get("common") in easy_whitelist`. -/
def easyNamePred (c : Json) : Except PyErr Bool :=
  match c.getItem "name" with
  | .error e => .error e
  | .ok n =>
    match pyGet n "common" with
    | .error e => .error e
    | .ok common => .ok (easy_whitelist.any (fun s => pyEq common (.str s)))

/-- Populous-country test of choose_easy (line 102):
`(c.get("population") or 0) >= 20_000_000`. -/
def popGe20MPred (c : Json) : Except PyErr Bool :=
  match pyGet c "population" with
  | .error e => .error e
  | .ok p => pyGeJsonInt (pyOrInt p 0) 20000000

/-- Medium test (line 106): `5_000_000 <= (c.get("population") or 0) < 20_000_000`. -/
def mediumPred (c : Json) : Except PyErr Bool :=
  match pyGet c "population" with
  | .error e => .error e
  | .ok p =>
    match pyLeIntJson 5000000 (pyOrInt p 0) with
    | .error e => .error e
    | .ok b1 => if b1 = false then .ok false else pyLtJsonInt (pyOrInt p 0) 20000000

/-- Hard test (line 113):
`(c.get("population") or 0) < 5_000_000 or c.get("region") == "Oceania"`. -/
def hardPred (c : Json) : Except PyErr Bool :=
  match pyGet c "population" with
  | .error e => .error e
  | .ok p =>
    match pyLtJsonInt (pyOrInt p 0) 5000000 with
    | .error e => .error e
    | .ok b1 =>
      if b1 then .ok true
      else
        match pyGet c "region" with
        | .error e => .error e
        | .ok r => .ok (pyEq r (.str "Oceania"))

/-- Expert test (line 120):
`(c.get("population") or 0) < 1_000_000 or c.get("region") in ("Oceania", "Americas")`. -/
def expertPred (c : Json) : Except PyErr Bool :=
  match pyGet c "population" with
  | .error e => .error e
  | .ok p =>
    match pyLtJsonInt (pyOrInt p 0) 1000000 with
    | .error e => .error e
    | .ok b1 =>
      if b1 then .ok true
      else
        match pyGet c "region" with
        | .error e => .error e
        | .ok r => .ok (pyEq r (.str "Oceania") || pyEq r (.str "Americas"))

/-- Pool computation of choose_easy (lines 99-102), whitelist first and the
populous fallback when the whitelist pool is empty. -/
def easyPoolM (countries : List Json) : Except PyErr (List Json) :=
  match pyFilterM easyNamePred countries with
  | .error e => .error e
  | .ok pool => if pool.isEmpty then pyFilterM popGe20MPred countries else .ok pool

/-- choose_easy (lines 98-103). -/
def choose_easy (idx : Nat) (countries : List Json) : Except PyErr Json :=
  match easyPoolM countries with
  | .error e => .error e
  | .ok pool => if pool.isEmpty then pyChoice idx countries else pyChoice idx pool

/-- Pool computation of choose_medium (line 106). -/
def mediumPoolM (countries : List Json) : Except PyErr (List Json) :=
  pyFilterM mediumPred countries

/-- choose_medium (lines 105-109). -/
def choose_medium (idx : Nat) (countries : List Json) : Except PyErr Json :=
  match mediumPoolM countries with
  | .error e => .error e
  | .ok pool => pyChoice idx (if pool.isEmpty then countries else pool)

/-- Pool computation of choose_hard (line 113). -/
def hardPoolM (countries : List Json) : Except PyErr (List Json) :=
  pyFilterM hardPred countries

/-- choose_hard (lines 111-116). -/
def choose_hard (idx : Nat) (countries : List Json) : Except PyErr Json :=
  match hardPoolM countries with
  | .error e => .error e
  | .ok pool => pyChoice idx (if pool.isEmpty then countries else pool)

/-- Pool computation of choose_expert (line 120). -/
def expertPoolM (countries : List Json) : Except PyErr (List Json) :=
  pyFilterM expertPred countries

/-- choose_expert (lines 118-123). -/
def choose_expert (idx : Nat) (countries : List Json) : Except PyErr Json :=
  match expertPoolM countries with
  | .error e => .error e
  | .ok pool => pyChoice idx (if pool.isEmpty then countries else pool)

/-- Tier dispatch of fetch_restcountries_capital_question (lines 125-132);
anything other than easy, medium and hard falls to the expert branch. -/
def chooseByTier (diff_key : String) (idx : Nat) (countries : List Json) : Except PyErr Json :=
  if diff_key = "easy" then choose_easy idx countries
  else if diff_key = "medium" then choose_medium idx countries
  else if diff_key = "hard" then choose_hard idx countries
  else choose_expert idx countries

/-- Lines 134-137: build the question from the chosen country record. -/
def capitalFromCountries (diff_key : String) (idx : Nat) (countries : List Json) :
    Except PyErr (Json × Json × Json) :=
  match chooseByTier diff_key idx countries with
  | .error e => .error e
  | .ok c =>
    match c.getItem "name" with
    | .error e => .error e
    | .ok nameObj =>
      match pyGetD nameObj "common" (.str "this country") with
      | .error e => .error e
      | .ok country =>
        match c.getItem "capital" with
        | .error e => .error e
        | .ok capList =>
          match pyIndex capList 0 with
          | .error e => .error e
          | .ok capital =>
            .ok (.str ("What is the capital of " ++ pyStr country ++ "?"), capital,
              .str "Geography (Capitals)")

/-- fetch_restcountries_capital_question (src/app.py lines 81-137). -/
def fetch_restcountries_capital_question (env : Env) (rand : Rand) (diff_key : String) :
    Except PyErr (Json × Json × Json) :=
  match env.restcountries with
  | none => .ok (.null, .null, .null)
  | some data =>
    if pyTruthy data = false then .ok (.null, .null, .null)
    else
      match pyIter data with
      | .error e => .error e
      | .ok items =>
        match pyFilterM isCapitalCandidate items with
        | .error e => .error e
        | .ok countries =>
          if countries.isEmpty then .ok (.null, .null, .null)
          else capitalFromCountries diff_key rand.capIdx countries

/-- Easy entries of the hand-curated fact table of fetch_wikipedia_fact_question
(lines 142-146), as (topic, category, question, answer). -/
def easyFacts : List (String × String × String × String) :=
  [("Mitochondrion", "Science (Biology)",
    "What organelle is the \x27powerhouse\x27 of the cell?", "Mitochondrion"),
   ("Water", "Science", "What is the chemical formula for water?", "H₂O"),
   ("Abraham Lincoln", "History (US)",
    "Which U.S. president delivered the Gettysburg Address?", "Abraham Lincoln")]

/-- Medium entries of the fact table (lines 147-151). -/
def mediumFacts : List (String × String × String × String) :=
  [("Photosynthesis", "Science (Biology)",
    "In plants, what gas is taken in during photosynthesis?", "Carbon dioxide"),
   ("Magna Carta", "History (World)",
    "The Magna Carta was sealed under King John in which century?", "13th century"),
   ("Periodic table", "Science (Chemistry)",
    "Who arranged elements by atomic number in the modern periodic table? (Last name)",
    "Moseley")]

/-- Hard entries of the fact table (lines 152-156). -/
def hardFacts : List (String × String × String × String) :=
  [("General relativity", "Science (Physics)",
    "Which scientist proposed general relativity? (Last name)", "Einstein"),
   ("Abyssinia", "History/Geography",
    "Which modern country was historically known as Abyssinia?", "Ethiopia"),
   ("Alexander von Humboldt", "History/Science",
    "Prussian naturalist called the \x27father of modern geography\x27?",
    "Alexander von Humboldt")]

/-- Expert entries of the fact table (lines 157-161). -/
def expertFacts : List (String × String × String × String) :=
  [("Yamoussoukro", "Geography/History",
    "Which country has Yamoussoukro as its political capital?", "Côte d\x27Ivoire"),
   ("Ngerulmud", "Geography", "Ngerulmud is the capital of which island nation?", "Palau"),
   ("Sri Jayawardenepura Kotte", "Geography",
    "What is Sri Lanka’s legislative capital city called?", "Sri Jayawardenepura Kotte")]

/-- Python `pools.get(diff_key, pools["easy"])` over the literal four-key dict
(line 163): any unknown key falls back to the easy pool. -/
def factPoolFor (diff_key : String) : List (String × String × String × String) :=
  if diff_key = "easy" then easyFacts
  else if diff_key = "medium" then mediumFacts
  else if diff_key = "hard" then hardFacts
  else if diff_key = "expert" then expertFacts
  else easyFacts

/-- Not-found sentinel of the encyclopedia summary API (line 166). -/
def notFoundUrl : String := "https://mediawiki.org/wiki/HyperSwitch/errors/not_found"

/-- fetch_wikipedia_fact_question (src/app.py lines 139-168): choose a table
entry, check that its topic still resolves, and return the hand-curated strings
(the summary body itself is never used). -/
def fetch_wikipedia_fact_question (env : Env) (rand : Rand) (diff_key : String) :
    Except PyErr (Json × Json × Json) :=
  match pyChoice rand.factIdx (factPoolFor diff_key) with
  | .error e => .error e
  | .ok entry =>
    match env.wikipedia entry.1 with
    | none => .ok (.null, .null, .null)
    | some resp =>
      if pyTruthy resp = false then .ok (.null, .null, .null)
      else
        match pyGet resp "type" with
        | .error e => .error e
        | .ok t =>
          if pyEq t (.str notFoundUrl) then .ok (.null, .null, .null)
          else .ok (.str entry.2.2.1, .str entry.2.2.2, .str entry.2.1)

/-- MUSIC_SNIPPETS (src/app.py lines 170-178): (lyric, song, artist). -/
def MUSIC_SNIPPETS : List (String × String × String) :=
  [("Amazing grace, how sweet the sound", "Amazing Grace", "Traditional"),
   ("Twinkle, twinkle, little star, how I wonder", "Twinkle, Twinkle, Little Star", "Traditional"),
   ("Happy birthday to you, happy birthday to you", "Happy Birthday to You", "Traditional"),
   ("You can call me queen bee, and baby I\x27ll rule", "Royals", "Lorde"),
   ("Is this the real life, is this just fantasy", "Bohemian Rhapsody", "Queen"),
   ("Hello from the other side, I must have", "Hello", "Adele"),
   ("Cause baby you\x27re a firework, come on, show \x27em", "Firework", "Katy Perry")]

/-- get_music_lyrics_question (src/app.py lines 180-184). -/
def get_music_lyrics_question (rand : Rand) : Except PyErr (Json × Json × Json) :=
  match pyChoice rand.musicIdx MUSIC_SNIPPETS with
  | .error e => .error e
  | .ok entry =>
    .ok (.str ("Music — Name That Song:\n“" ++ entry.1 ++ " …”  • Name the song and artist."),
      .str (entry.2.1 ++ " — " ++ entry.2.2), .str "Music (Lyrics ≤10 words)")

/-- easy_items of get_crossword_question (lines 187-193). -/
def crosswordEasyItems : List (String × String) :=
  [("Opposite of ‘yin’ (4).", "YANG"),
   ("French \x27yes\x27 (3).", "OUI"),
   ("Unit of electrical resistance (3).", "OHM"),
   ("Greek letter after alpha (4).", "BETA"),
   ("Ocean-warming pattern; ignore diacritics (6).", "ELNINO")]

/-- hard_items of get_crossword_question (lines 194-200). -/
def crosswordHardItems : List (String × String) :=
  [("Shakespearean \x27before\x27 (3).", "ERE"),
   ("Prefix meaning \x27earth\x27 (3).", "GEO"),
   ("Church recess (4).", "APSE"),
   ("Long heroic poem (4).", "EPIC"),
   ("Tree resin (4).", "AMBER")]

/-- get_crossword_question (src/app.py lines 186-203). -/
def get_crossword_question (rand : Rand) (diff_key : String) : Except PyErr (Json × Json × Json) :=
  let pool := if diff_key = "easy" ∨ diff_key = "medium" then crosswordEasyItems
    else crosswordHardItems
  match pyChoice rand.crosswordIdx pool with
  | .error e => .error e
  | .ok entry => .ok (.str ("Crossword-style clue: " ++ entry.1), .str entry.2, .str "Crossword")

/-- Difficulty-aligned pools of pick_generator (src/app.py lines 210-240). -/
def poolFor (diff_key : String) : List GenTag :=
  if diff_key = "easy" then
    [.opentdb "easy", .capital "easy", .fact "easy", .lyric, .crossword "easy"]
  else if diff_key = "medium" then
    [.opentdb "medium", .capital "medium", .fact "medium", .lyric, .crossword "medium"]
  else if diff_key = "hard" then
    [.opentdb "hard", .capital "hard", .fact "hard", .crossword "hard"]
  else
    [.opentdb "hard", .capital "expert", .fact "expert", .crossword "expert"]

/-- Evaluate one pool entry; the lambdas at lines 211-240 all pass category
None to the general-knowledge generator. -/
def runGen (env : Env) (rand : Rand) : GenTag → Except PyErr (Json × Json × Json)
  | .opentdb d => fetch_opentdb_question env d none
  | .capital d => fetch_restcountries_capital_question env rand d
  | .fact d => fetch_wikipedia_fact_question env rand d
  | .lyric => get_music_lyrics_question rand
  | .crossword d => get_crossword_question rand d

/-- Sentinel record returned when the loop exhausts the pool (line 247). -/
def sentinelTriple : Json × Json × Json :=
  (.str "Couldn\x27t fetch a question right now. Check your internet and try again.",
   .str "—", .str "Error")

/-- Fallback loop of pick_generator (lines 242-247): first generator whose
question and answer are both truthy wins. -/
def pickLoop (env : Env) (rand : Rand) : List GenTag → Except PyErr (Json × Json × Json)
  | [] => .ok sentinelTriple
  | g :: gs =>
    match runGen env rand g with
    | .error e => .error e
    | .ok (q, a, c) => if pyTruthy q && pyTruthy a then .ok (q, a, c) else pickLoop env rand gs

/-- pick_generator (src/app.py lines 205-247): build the pool for the
difficulty label, shuffle it, try each generator in order, and fall back to
the sentinel record when all of them came back unavailable. -/
def pick_generator (env : Env) (rand : Rand) (difficulty_label : String) :
    Except PyErr (Json × Json × Json) :=
  pickLoop env rand (rand.shuffle (poolFor (diffKeyOf difficulty_label)))

/-- Whether a pool entry is the general-knowledge (OpenTriviaDB) generator. -/
def GenTag.isOpentdb : GenTag → Bool
  | .opentdb _ => true
  | _ => false

/-- The partition that the choose functions actually hand to `random.choice`,
after their fallback to the full candidate set (derived from lines 98-132). -/
def usedPoolM (diff_key : String) (countries : List Json) : Except PyErr (List Json) :=
  if diff_key = "easy" then
    match easyPoolM countries with
    | .error e => .error e
    | .ok pool => .ok (if pool.isEmpty then countries else pool)
  else if diff_key = "medium" then
    match mediumPoolM countries with
    | .error e => .error e
    | .ok pool => .ok (if pool.isEmpty then countries else pool)
  else if diff_key = "hard" then
    match hardPoolM countries with
    | .error e => .error e
    | .ok pool => .ok (if pool.isEmpty then countries else pool)
  else
    match expertPoolM countries with
    | .error e => .error e
    | .ok pool => .ok (if pool.isEmpty then countries else pool)

/-- Well-formed country record: the shape the country reference API contract
promises (common name a string, population an integer when present, region a
string when present). -/
def isWFCountry (c : Json) : Bool :=
  match c with
  | .obj kvs =>
    (match kvs.lookup "name" with
     | some (.obj nkvs) =>
       (match nkvs.lookup "common" with
        | some (.str _) => true
        | _ => false)
     | _ => false)
    && (match kvs.lookup "population" with
        | none => true
        | some (.num _) => true
        | _ => false)
    && (match kvs.lookup "region" with
        | none => true
        | some (.str _) => true
        | _ => false)
  | _ => false

/-- Population of a well-formed record; an absent field counts as 0, matching
the `or 0` default in the source. -/
def popOf (c : Json) : Int :=
  match c with
  | .obj kvs =>
    match kvs.lookup "population" with
    | some (.num n) => n
    | _ => 0
  | _ => 0

/-- Region of a well-formed record, when present. -/
def regionOf (c : Json) : Option String :=
  match c with
  | .obj kvs =>
    match kvs.lookup "region" with
    | some (.str s) => some s
    | _ => none
  | _ => none

/-- Common name of a well-formed record. -/
def commonNameOf (c : Json) : String :=
  match c with
  | .obj kvs =>
    match kvs.lookup "name" with
    | some (.obj nkvs) =>
      (match nkvs.lookup "common" with
       | some (.str s) => s
       | _ => "")
    | _ => ""
  | _ => ""

/-- Spec, section 4.4: Easy partition is the fixed allow-list of widely-known
countries. -/
def specEasyPrimary (c : Json) : Bool := easy_whitelist.any (fun w => commonNameOf c == w)

/-- Spec, section 4.4: the Easy fallback partition, population at least
20,000,000. -/
def specEasySecondary (c : Json) : Bool := decide (20000000 ≤ popOf c)

/-- Spec, section 4.4: Medium partition, population in [5,000,000, 20,000,000). -/
def specMediumP (c : Json) : Bool := decide (5000000 ≤ popOf c) && decide (popOf c < 20000000)

/-- Spec, section 4.4: Hard partition, population below 5,000,000 or region
Oceania. -/
def specHardP (c : Json) : Bool :=
  decide (popOf c < 5000000) || decide (regionOf c = some "Oceania")

/-- Spec, section 4.4: Expert partition, population below 1,000,000 or region
Oceania or Americas. -/
def specExpertP (c : Json) : Bool :=
  decide (popOf c < 1000000) || decide (regionOf c = some "Oceania")
    || decide (regionOf c = some "Americas")

/-- Spec, sections 3 and 4.4: the partition the spec says each tier draws
from, including the fallback to the full candidate set when a partition is
empty (and, for Easy, the intermediate populous-country fallback). -/
def specUsedPool (diff_key : String) (countries : List Json) : List Json :=
  if diff_key = "easy" then
    let p1 := countries.filter specEasyPrimary
    if p1.isEmpty then
      let p2 := countries.filter specEasySecondary
      if p2.isEmpty then countries else p2
    else p1
  else if diff_key = "medium" then
    let p := countries.filter specMediumP
    if p.isEmpty then countries else p
  else if diff_key = "hard" then
    let p := countries.filter specHardP
    if p.isEmpty then countries else p
  else
    let p := countries.filter specExpertP
    if p.isEmpty then countries else p

/-- Identity randomness oracle: the shuffle leaves the pool in source order and
every choice oracle picks index 0. -/
def randId : Rand where
  shuffle := id
  capIdx := 0
  factIdx := 0
  musicIdx := 0
  crosswordIdx := 0

/-- Randomness oracle whose shuffle returns the singleton general-knowledge
pool entry for the hard tier. -/
def randSingleOpentdb : Rand where
  shuffle := fun _ => [.opentdb "hard"]
  capIdx := 0
  factIdx := 0
  musicIdx := 0
  crosswordIdx := 0

/-- World in which every HTTP request fails at transport level. -/
def envAllDown : Env where
  opentdb := fun _ => none
  restcountries := none
  wikipedia := fun _ => none

/-- World in which the general-knowledge API reports success status but omits
the `results` field, while the other endpoints are down. -/
def envMissingResults : Env where
  opentdb := fun _ => some (.obj [("response_code", .num 0)])
  restcountries := none
  wikipedia := fun _ => none

/-- World in which the general-knowledge API returns one well-encoded item
whose category string is empty (base64 of "Q", "A" and ""). -/
def envEmptyCategory : Env where
  opentdb := fun _ => some (.obj
    [("response_code", .num 0),
     ("results", .arr [.obj
       [("question", .str "UQ=="),
        ("correct_answer", .str "QQ=="),
        ("category", .str "")]])])
  restcountries := none
  wikipedia := fun _ => none

/-- World in which the encyclopedia summary lookup answers every topic with an
empty JSON object: the transport succeeded and no not-found type was reported. -/
def envEmptySummary : Env where
  opentdb := fun _ => none
  restcountries := none
  wikipedia := fun _ => some (.obj [])

/-- World in which the encyclopedia summary lookup resolves every topic with a
standard summary object. -/
def envOkSummary : Env where
  opentdb := fun _ => none
  restcountries := none
  wikipedia := fun _ => some (.obj [("type", .str "standard")])

/-- A well-formed whitelisted country record used to instantiate theorems. -/
def franceRec : Json := .obj
  [("name", .obj [("common", .str "France")]),
   ("capital", .arr [.str "Paris"]),
   ("region", .str "Europe"),
   ("population", .num 68000000)]

/-- A well-formed small-population Oceania record used to instantiate theorems. -/
def palauRec : Json := .obj
  [("name", .obj [("common", .str "Palau")]),
   ("capital", .arr [.str "Ngerulmud"]),
   ("region", .str "Oceania"),
   ("population", .num 18000)]

theorem pyChoice_mem {α : Type} {idx : Nat} {xs : List α} {x : α}
    (h : pyChoice idx xs = .ok x) : x ∈ xs := by
  cases xs with
  | nil => simp [pyChoice] at h
  | cons y ys =>
    simp only [pyChoice, Except.ok.injEq] at h
    exact h ▸ List.get_mem _ _ _

theorem pyChoice_ok {α : Type} (idx : Nat) {xs : List α} (h : xs ≠ []) :
    ∃ x, pyChoice idx xs = .ok x ∧ x ∈ xs := by
  cases xs with
  | nil => exact absurd rfl h
  | cons y ys => exact ⟨_, rfl, List.get_mem _ _ _⟩

theorem pickLoop_sentinel (env : Env) (rand : Rand) (gs : List GenTag)
    (h : ∀ g ∈ gs, ∃ q a c, runGen env rand g = .ok (q, a, c) ∧
      ¬(pyTruthy q = true ∧ pyTruthy a = true)) :
    pickLoop env rand gs = .ok sentinelTriple := by
  induction gs with
  | nil => rfl
  | cons g gs ih =>
    obtain ⟨q, a, c, hg, hqa⟩ := h g (List.mem_cons_self g gs)
    have hb : (pyTruthy q && pyTruthy a) = false := by
      cases hq : pyTruthy q <;> cases ha : pyTruthy a <;> simp_all
    simp only [pickLoop, hg, hb, Bool.false_eq_true, if_false]
    exact ih (fun g' hg' => h g' (List.mem_cons_of_mem _ hg'))

theorem pickLoop_all_ok (env : Env) (rand : Rand) (gs : List GenTag)
    (h : ∀ g ∈ gs, ∃ r, runGen env rand g = .ok r) :
    ∃ t, pickLoop env rand gs = .ok t := by
  induction gs with
  | nil => exact ⟨sentinelTriple, rfl⟩
  | cons g gs ih =>
    obtain ⟨⟨q, a, c⟩, hg⟩ := h g (List.mem_cons_self g gs)
    obtain ⟨t, ht⟩ := ih (fun g' hg' => h g' (List.mem_cons_of_mem _ hg'))
    by_cases hqa : (pyTruthy q && pyTruthy a) = true
    · exact ⟨(q, a, c), by simp [pickLoop, hg, hqa]⟩
    · exact ⟨t, by simp only [pickLoop, hg]; rw [if_neg hqa]; exact ht⟩

theorem pickLoop_skip (env : Env) (rand : Rand) (g : GenTag) (gs : List GenTag)
    {q a c : Json} (hg : runGen env rand g = .ok (q, a, c))
    (hqa : ¬(pyTruthy q = true ∧ pyTruthy a = true)) :
    pickLoop env rand (g :: gs) = pickLoop env rand gs := by
  have hb : (pyTruthy q && pyTruthy a) = false := by
    cases hq : pyTruthy q <;> cases ha : pyTruthy a <;> simp_all
  simp [pickLoop, hg, hb]

theorem pickLoop_first (env : Env) (rand : Rand) (pre : List GenTag) (g : GenTag)
    (post : List GenTag) {q a c : Json}
    (hpre : ∀ g' ∈ pre, ∃ q' a' c', runGen env rand g' = .ok (q', a', c') ∧
      ¬(pyTruthy q' = true ∧ pyTruthy a' = true))
    (hg : runGen env rand g = .ok (q, a, c))
    (hq : pyTruthy q = true) (ha : pyTruthy a = true) :
    pickLoop env rand (pre ++ g :: post) = .ok (q, a, c) := by
  induction pre with
  | nil => simp [pickLoop, hg, hq, ha]
  | cons p ps ih =>
    obtain ⟨q', a', c', hp, hqa'⟩ := hpre p (List.mem_cons_self p ps)
    rw [List.cons_append, pickLoop_skip env rand p _ hp hqa']
    exact ih (fun g' hg' => hpre g' (List.mem_cons_of_mem _ hg'))

theorem pickLoop_cases (env : Env) (rand : Rand) (gs : List GenTag)
    {t : Json × Json × Json} (h : pickLoop env rand gs = .ok t) :
    t = sentinelTriple ∨ ∃ g ∈ gs, runGen env rand g = .ok t ∧
      pyTruthy t.1 = true ∧ pyTruthy t.2.1 = true := by
  induction gs with
  | nil => left; simpa [pickLoop] using h.symm
  | cons g gs ih =>
    simp only [pickLoop] at h
    split at h
    · exact absurd h (by simp)
    · next q a c heq =>
      split at h
      · next hqa =>
        obtain ⟨hq, ha⟩ := Bool.and_eq_true_iff.mp hqa
        have ht := Except.ok.inj h
        subst ht
        exact Or.inr ⟨g, List.mem_cons_self g gs, heq, hq, ha⟩
      · rcases ih h with hs | ⟨g', hg', hr, hq, ha⟩
        · exact Or.inl hs
        · exact Or.inr ⟨g', List.mem_cons_of_mem _ hg', hr, hq, ha⟩

theorem factPoolFor_ne_nil (d : String) : factPoolFor d ≠ [] := by
  unfold factPoolFor
  repeat' split
  all_goals decide

theorem factPoolFor_entries (d : String) :
    ∀ e ∈ factPoolFor d, e.2.1 ≠ "" ∧ e.2.1 ≠ "Error" := by
  unfold factPoolFor
  repeat' split
  all_goals decide

theorem music_usable (env : Env) (rand : Rand) :
    ∃ q a c, runGen env rand .lyric = .ok (q, a, c) ∧
      pyTruthy q = true ∧ pyTruthy a = true ∧ c = .str "Music (Lyrics ≤10 words)" := by
  obtain ⟨e, he, hmem⟩ := pyChoice_ok rand.musicIdx (by decide : MUSIC_SNIPPETS ≠ [])
  have hres : runGen env rand .lyric = .ok
      (.str ("Music — Name That Song:\n“" ++ e.1 ++ " …”  • Name the song and artist."),
       .str (e.2.1 ++ " — " ++ e.2.2), .str "Music (Lyrics ≤10 words)") := by
    unfold runGen get_music_lyrics_question
    rw [he]
  have hne := (by decide : ∀ x ∈ MUSIC_SNIPPETS,
      (("Music — Name That Song:\n“" ++ x.1 ++ " …”  • Name the song and artist.") != "") = true ∧
      ((x.2.1 ++ " — " ++ x.2.2) != "") = true) e hmem
  exact ⟨_, _, _, hres, by simpa [pyTruthy] using hne.1, by simpa [pyTruthy] using hne.2, rfl⟩

theorem capitalFromCountries_shape {d : String} {idx : Nat} {countries : List Json}
    {q a c : Json} (h : capitalFromCountries d idx countries = .ok (q, a, c)) :
    (∃ s, q = .str s) ∧ c = .str "Geography (Capitals)" := by
  unfold capitalFromCountries at h
  repeat' split at h
  all_goals first
    | exact Except.noConfusion h
    | (have hp := Except.ok.inj h
       simp only [Prod.mk.injEq] at hp
       obtain ⟨h1, h2, h3⟩ := hp
       exact ⟨⟨_, h1.symm⟩, h3.symm⟩)

theorem capital_ok_shape {env : Env} {rand : Rand} {d : String} {q a c : Json}
    (h : fetch_restcountries_capital_question env rand d = .ok (q, a, c))
    (hq : pyTruthy q = true) : (∃ s, q = .str s) ∧ c = .str "Geography (Capitals)" := by
  unfold fetch_restcountries_capital_question at h
  repeat' split at h
  all_goals first
    | exact Except.noConfusion h
    | exact capitalFromCountries_shape h
    | (have hp := Except.ok.inj h
       simp only [Prod.mk.injEq] at hp
       obtain ⟨h1, h2, h3⟩ := hp
       rw [← h1] at hq
       simp [pyTruthy] at hq)

theorem fact_ok_shape {env : Env} {rand : Rand} {d : String} {q a c : Json}
    (h : fetch_wikipedia_fact_question env rand d = .ok (q, a, c))
    (hq : pyTruthy q = true) : ∃ s, c = .str s ∧ s ≠ "" ∧ s ≠ "Error" := by
  unfold fetch_wikipedia_fact_question at h
  split at h
  · exact Except.noConfusion h
  · next entry heq =>
    have hmem := pyChoice_mem heq
    have hent := factPoolFor_entries d entry hmem
    repeat' split at h
    all_goals first
      | exact Except.noConfusion h
      | (have hp := Except.ok.inj h
         simp only [Prod.mk.injEq] at hp
         obtain ⟨h1, h2, h3⟩ := hp
         first
           | exact ⟨entry.2.1, h3.symm, hent.1, hent.2⟩
           | (rw [← h1] at hq; simp [pyTruthy] at hq))

theorem crossword_ok_shape {rand : Rand} {d : String} {q a c : Json}
    (h : get_crossword_question rand d = .ok (q, a, c)) : c = .str "Crossword" := by
  simp only [get_crossword_question] at h
  repeat' split at h
  all_goals first
    | exact Except.noConfusion h
    | (have hp := Except.ok.inj h
       simp only [Prod.mk.injEq] at hp
       exact hp.2.2.symm)

theorem lyric_ok_shape {rand : Rand} {q a c : Json}
    (h : get_music_lyrics_question rand = .ok (q, a, c)) :
    c = .str "Music (Lyrics ≤10 words)" := by
  unfold get_music_lyrics_question at h
  split at h
  · exact Except.noConfusion h
  · have hp := Except.ok.inj h
    simp only [Prod.mk.injEq] at hp
    exact hp.2.2.symm

theorem pickLoop_reaches_usable (env : Env) (rand : Rand) (gs : List GenTag)
    (hl : GenTag.lyric ∈ gs) (hok : ∀ g ∈ gs, ∃ r, runGen env rand g = .ok r) :
    ∃ q a c g, pickLoop env rand gs = .ok (q, a, c) ∧ g ∈ gs ∧
      runGen env rand g = .ok (q, a, c) ∧ pyTruthy q = true ∧ pyTruthy a = true := by
  induction gs with
  | nil => simp at hl
  | cons g0 gs ih =>
    obtain ⟨⟨q0, a0, c0⟩, h0⟩ := hok g0 (List.mem_cons_self g0 gs)
    by_cases hqa : (pyTruthy q0 && pyTruthy a0) = true
    · obtain ⟨hq, ha⟩ := Bool.and_eq_true_iff.mp hqa
      exact ⟨q0, a0, c0, g0, by simp [pickLoop, h0, hqa], List.mem_cons_self g0 gs, h0, hq, ha⟩
    · have hqa' : ¬(pyTruthy q0 = true ∧ pyTruthy a0 = true) := by
        intro ⟨x, y⟩; exact hqa (by rw [x, y]; rfl)
      have hskip := pickLoop_skip env rand g0 gs h0 hqa'
      have hl' : GenTag.lyric ∈ gs := by
        rcases List.mem_cons.mp hl with he | ht
        · exfalso
          obtain ⟨q, a, c, hr, hq, ha, _⟩ := music_usable env rand
          rw [← he] at h0
          have := Except.ok.inj (h0.symm.trans hr)
          simp only [Prod.mk.injEq] at this
          obtain ⟨e1, e2, e3⟩ := this
          exact hqa' ⟨e1 ▸ hq, e2 ▸ ha⟩
        · exact ht
      obtain ⟨q, a, c, g, hp, hg, hr, hq, ha⟩ :=
        ih hl' (fun g hg => hok g (List.mem_cons_of_mem _ hg))
      exact ⟨q, a, c, g, by rw [hskip]; exact hp, List.mem_cons_of_mem _ hg, hr, hq, ha⟩

/-- C1 counterexample: the claim says `generate` never raises because any
transport, parsing, or missing-field failure inside a generator becomes the
unavailable signal.  In the world `envMissingResults` the general-knowledge
API answers with success status `response_code = 0` but without a `results`
field; the subscript `data["results"]` then raises a KeyError that propagates
out of `pick_generator` (src/app.py line 75 has no surrounding handler). -/
theorem generate_raises_on_missing_results :
    pick_generator envMissingResults randId "Baby Barbara" = .error (.keyError "results") := rfl

/-- C1 (amended): transport-level failures of the three endpoints (modelled as
an absent `get_json` response) are converted into the unavailable triple
inside each generator, and whenever every shuffled generator returns rather
than raises, `pick_generator` returns a record; but a success-status payload
with missing fields can still raise, as the counterexample shows. -/
theorem generate_failures_contained :
    (∀ (env : Env) (d : String) (cat : Option Int),
      env.opentdb (opentdbParams d cat) = none →
      fetch_opentdb_question env d cat = .ok (.null, .null, .null))
    ∧ (∀ (env : Env) (rand : Rand) (d : String), env.restcountries = none →
        fetch_restcountries_capital_question env rand d = .ok (.null, .null, .null))
    ∧ (∀ (env : Env) (rand : Rand) (d : String), (∀ t, env.wikipedia t = none) →
        fetch_wikipedia_fact_question env rand d = .ok (.null, .null, .null))
    ∧ (∀ (env : Env) (rand : Rand) (label : String),
        (∀ g ∈ rand.shuffle (poolFor (diffKeyOf label)), ∃ r, runGen env rand g = .ok r) →
        ∃ t, pick_generator env rand label = .ok t) := by
  refine ⟨?_, ?_, ?_, ?_⟩
  · intro env d cat h
    simp [fetch_opentdb_question, h]
  · intro env rand d h
    simp [fetch_restcountries_capital_question, h]
  · intro env rand d h
    obtain ⟨e, he, _⟩ := pyChoice_ok rand.factIdx (factPoolFor_ne_nil d)
    simp [fetch_wikipedia_fact_question, he, h e.1]
  · intro env rand label h
    exact pickLoop_all_ok env rand _ h

theorem generate_failures_contained_witness :
    ∃ t, pick_generator envAllDown randId "College Carl" = .ok t :=
  generate_failures_contained.2.2.2 envAllDown randId "College Carl" (by
    intro g hg
    have hord : randId.shuffle (poolFor (diffKeyOf "College Carl")) =
        [.opentdb "hard", .capital "hard", .fact "hard", .crossword "hard"] := rfl
    rw [hord] at hg
    simp only [List.mem_cons, List.not_mem_nil, or_false] at hg
    rcases hg with rfl | rfl | rfl | rfl
    · exact ⟨(.null, .null, .null), rfl⟩
    · exact ⟨(.null, .null, .null), rfl⟩
    · exact ⟨(.null, .null, .null), rfl⟩
    · exact ⟨_, rfl⟩)

/-- C2: whenever every generator handed to the fallback loop returns the
unavailable signal (a triple whose question or answer is falsy), the loop
returns exactly the sentinel record with the fixed could-not-fetch text, the
em-dash placeholder and the category Error (src/app.py lines 242-247). -/
theorem generate_sentinel_when_all_unavailable :
    ∀ (env : Env) (rand : Rand) (label : String),
      (∀ g ∈ rand.shuffle (poolFor (diffKeyOf label)),
        ∃ q a c, runGen env rand g = .ok (q, a, c) ∧
          ¬(pyTruthy q = true ∧ pyTruthy a = true)) →
      pick_generator env rand label = .ok sentinelTriple ∧
      sentinelTriple =
        (.str "Couldn\x27t fetch a question right now. Check your internet and try again.",
         .str "—", .str "Error") :=
  fun env rand _ h => ⟨pickLoop_sentinel env rand _ h, rfl⟩

theorem generate_sentinel_when_all_unavailable_witness :
    pick_generator envAllDown randSingleOpentdb "College Carl" = .ok sentinelTriple ∧
    sentinelTriple =
      (.str "Couldn\x27t fetch a question right now. Check your internet and try again.",
       .str "—", .str "Error") :=
  generate_sentinel_when_all_unavailable envAllDown randSingleOpentdb "College Carl" (by
    intro g hg
    have hord : randSingleOpentdb.shuffle (poolFor (diffKeyOf "College Carl")) =
        [.opentdb "hard"] := rfl
    rw [hord] at hg
    simp only [List.mem_cons, List.not_mem_nil, or_false] at hg
    subst hg
    exact ⟨.null, .null, .null, rfl, by simp [pyTruthy]⟩)

/-- C3 counterexample: the claim says the returned record always has a
non-empty categoryLabel.  In the world `envEmptyCategory` the
general-knowledge API succeeds with a well-encoded item whose category string
is empty, and `pick_generator` returns that empty category verbatim. -/
theorem generate_empty_category_example :
    pick_generator envEmptyCategory randId "Baby Barbara" =
      .ok (.str "Q", .str "A", .str "") := rfl

/-- C3 (amended): the returned record is either the sentinel (category Error)
or the exact output of the succeeding generator; when that generator is the
capital, fact, lyric, or crossword generator the category is a non-empty
string different from Error, but a succeeding general-knowledge call passes
through whatever category the external API supplied, which may be empty (see
the counterexample) or even the string Error. -/
theorem generate_category_provenance :
    ∀ (env : Env) (rand : Rand) (label : String) (q a c : Json),
      pick_generator env rand label = .ok (q, a, c) →
      ((q, a, c) = sentinelTriple ∧ c = .str "Error")
      ∨ ∃ g, g ∈ rand.shuffle (poolFor (diffKeyOf label)) ∧
          runGen env rand g = .ok (q, a, c) ∧ pyTruthy q = true ∧ pyTruthy a = true ∧
          (g.isOpentdb = false → ∃ s, c = .str s ∧ s ≠ "" ∧ s ≠ "Error") := by
  intro env rand label q a c h
  rcases pickLoop_cases env rand _ h with hs | ⟨g, hg, hr, hq, ha⟩
  · exact Or.inl ⟨hs, congrArg (fun t => t.2.2) hs⟩
  · refine Or.inr ⟨g, hg, hr, hq, ha, ?_⟩
    intro hnot
    cases g with
    | opentdb d => simp [GenTag.isOpentdb] at hnot
    | capital d =>
      have hshape := capital_ok_shape hr hq
      exact ⟨"Geography (Capitals)", hshape.2, by decide, by decide⟩
    | fact d => exact fact_ok_shape hr hq
    | lyric =>
      exact ⟨"Music (Lyrics ≤10 words)", lyric_ok_shape hr, by decide, by decide⟩
    | crossword d =>
      exact ⟨"Crossword", crossword_ok_shape hr, by decide, by decide⟩

theorem generate_category_provenance_witness :
    (((Json.str "Crossword-style clue: Shakespearean \x27before\x27 (3).", Json.str "ERE",
        Json.str "Crossword") : Json × Json × Json) = sentinelTriple ∧
      (Json.str "Crossword" : Json) = .str "Error")
    ∨ ∃ g, g ∈ randId.shuffle (poolFor (diffKeyOf "College Carl")) ∧
        runGen envAllDown randId g =
          .ok (.str "Crossword-style clue: Shakespearean \x27before\x27 (3).", .str "ERE",
            .str "Crossword") ∧
        pyTruthy (Json.str "Crossword-style clue: Shakespearean \x27before\x27 (3).") = true ∧
        pyTruthy (Json.str "ERE") = true ∧
        (g.isOpentdb = false →
          ∃ s, (Json.str "Crossword" : Json) = .str s ∧ s ≠ "" ∧ s ≠ "Error") :=
  generate_category_provenance envAllDown randId "College Carl" _ _ _ rfl

/-- C4: in the Expert pool the general-knowledge generator is parameterized
with the capped value hard (which is one of the three supported difficulty
parameters and is the value actually put in the query string), while the
capital, fact and crossword generators of the same pool receive the internal
value expert; for the other three tiers the capped and internal values
coincide (src/app.py lines 50-52 and 234-240). -/
theorem expert_pool_caps_opentdb_difficulty :
    poolFor "expert" = [.opentdb "hard", .capital "expert", .fact "expert", .crossword "expert"]
    ∧ diffKeyOf "PhD Pat" = "expert"
    ∧ map_to_trivia_api "PhD Pat" = "hard"
    ∧ (("difficulty", Json.str "hard") ∈ opentdbParams "hard" none)
    ∧ (∀ (d : String) (cat : Option Int) (v : Json), ("difficulty", v) ∈ opentdbParams d cat →
        v = .str "easy" ∨ v = .str "medium" ∨ v = .str "hard")
    ∧ (∀ label, label = "Baby Barbara" ∨ label = "Average Joe" ∨ label = "College Carl" →
        map_to_trivia_api label = diffKeyOf label)
    ∧ poolFor "easy" = [.opentdb "easy", .capital "easy", .fact "easy", .lyric, .crossword "easy"]
    ∧ poolFor "medium" =
        [.opentdb "medium", .capital "medium", .fact "medium", .lyric, .crossword "medium"]
    ∧ poolFor "hard" = [.opentdb "hard", .capital "hard", .fact "hard", .crossword "hard"] := by
  refine ⟨rfl, rfl, rfl, by simp [opentdbParams], ?_, ?_, rfl, rfl, rfl⟩
  · intro d cat v h
    simp only [opentdbParams] at h
    repeat' split at h
    all_goals simp_all
  · intro label hl
    rcases hl with rfl | rfl | rfl <;> rfl

theorem expert_pool_caps_opentdb_difficulty_witness :
    (Json.str "hard" = Json.str "easy" ∨ Json.str "hard" = Json.str "medium" ∨
      Json.str "hard" = Json.str "hard") ∧
    map_to_trivia_api "Baby Barbara" = diffKeyOf "Baby Barbara" :=
  ⟨expert_pool_caps_opentdb_difficulty.2.2.2.2.1 "hard" none (.str "hard")
      expert_pool_caps_opentdb_difficulty.2.2.2.1,
   expert_pool_caps_opentdb_difficulty.2.2.2.2.2.1 "Baby Barbara" (Or.inl rfl)⟩

/-- C5: the Easy and Medium pools consist of exactly five generator kinds
including the lyric generator; the Hard and Expert pools consist of exactly
the four kinds general-knowledge, capital, fact and crossword and never
contain the lyric generator, so no shuffle of those pools can make the loop
invoke it (src/app.py lines 210-240). -/
theorem lyric_pool_membership :
    poolFor "easy" = [.opentdb "easy", .capital "easy", .fact "easy", .lyric, .crossword "easy"]
    ∧ poolFor "medium" =
        [.opentdb "medium", .capital "medium", .fact "medium", .lyric, .crossword "medium"]
    ∧ poolFor "hard" = [.opentdb "hard", .capital "hard", .fact "hard", .crossword "hard"]
    ∧ poolFor "expert" = [.opentdb "hard", .capital "expert", .fact "expert", .crossword "expert"]
    ∧ (poolFor "easy").length = 5 ∧ (poolFor "medium").length = 5
    ∧ (poolFor "hard").length = 4 ∧ (poolFor "expert").length = 4
    ∧ GenTag.lyric ∈ poolFor "easy" ∧ GenTag.lyric ∈ poolFor "medium"
    ∧ GenTag.lyric ∉ poolFor "hard" ∧ GenTag.lyric ∉ poolFor "expert"
    ∧ (∀ order : List GenTag, order.Perm (poolFor "hard") → GenTag.lyric ∉ order)
    ∧ (∀ order : List GenTag, order.Perm (poolFor "expert") → GenTag.lyric ∉ order) := by
  refine ⟨rfl, rfl, rfl, rfl, rfl, rfl, rfl, rfl, by decide, by decide, by decide, by decide,
    ?_, ?_⟩
  · exact fun order hp hmem => absurd (hp.subset hmem) (by decide)
  · exact fun order hp hmem => absurd (hp.subset hmem) (by decide)

theorem lyric_pool_membership_witness : GenTag.lyric ∉ poolFor "hard" :=
  lyric_pool_membership.2.2.2.2.2.2.2.2.2.2.2.2.1 (poolFor "hard") (List.Perm.refl _)

/-- C8 counterexample: the claim says that apart from a not-found report or a
transport failure the fact generator returns exactly its hand-curated entry.
In the world `envEmptySummary` the encyclopedia lookup succeeds and returns
an empty object, which neither is a transport failure nor carries the
not-found type, yet the generator returns the unavailable triple because the
empty dict is falsy under `if not resp` (src/app.py line 166). -/
theorem fact_unavailable_on_empty_summary :
    fetch_wikipedia_fact_question envEmptySummary randId "easy" = .ok (.null, .null, .null)
    ∧ envEmptySummary.wikipedia "Mitochondrion" = some (.obj [])
    ∧ pyGet (.obj []) "type" = .ok .null
    ∧ pyEq .null (.str notFoundUrl) = false :=
  ⟨rfl, rfl, rfl, rfl⟩

/-- C8 (amended): the fact generator treats a transport failure, a falsy
response (such as an empty object), or a response whose type field equals the
not-found sentinel as unavailable; for any truthy object response whose type
field differs from the not-found sentinel it returns exactly the hand-curated
question, answer and category of the chosen table entry — a constant
independent of the summary body, which therefore never appears in the
record. -/
theorem fact_generator_summary_check :
    ∀ (env : Env) (rand : Rand) (d : String) (topic cat q ans : String),
      pyChoice rand.factIdx (factPoolFor d) = .ok (topic, cat, q, ans) →
      (env.wikipedia topic = none →
        fetch_wikipedia_fact_question env rand d = .ok (.null, .null, .null))
      ∧ (∀ resp, env.wikipedia topic = some resp → pyTruthy resp = false →
          fetch_wikipedia_fact_question env rand d = .ok (.null, .null, .null))
      ∧ (∀ resp t, env.wikipedia topic = some resp → pyTruthy resp = true →
          pyGet resp "type" = .ok t → pyEq t (.str notFoundUrl) = true →
          fetch_wikipedia_fact_question env rand d = .ok (.null, .null, .null))
      ∧ (∀ resp t, env.wikipedia topic = some resp → pyTruthy resp = true →
          pyGet resp "type" = .ok t → pyEq t (.str notFoundUrl) = false →
          fetch_wikipedia_fact_question env rand d = .ok (.str q, .str ans, .str cat)) := by
  intro env rand d topic cat q ans hchoice
  refine ⟨?_, ?_, ?_, ?_⟩
  · intro h
    simp [fetch_wikipedia_fact_question, hchoice, h]
  · intro resp h hresp
    simp [fetch_wikipedia_fact_question, hchoice, h, hresp]
  · intro resp t h hresp ht hnf
    simp [fetch_wikipedia_fact_question, hchoice, h, hresp, ht, hnf]
  · intro resp t h hresp ht hnf
    simp [fetch_wikipedia_fact_question, hchoice, h, hresp, ht, hnf]

theorem fact_generator_summary_check_witness :
    fetch_wikipedia_fact_question envOkSummary randId "easy" =
      .ok (.str "What organelle is the \x27powerhouse\x27 of the cell?",
        .str "Mitochondrion", .str "Science (Biology)") :=
  (fact_generator_summary_check envOkSummary randId "easy" "Mitochondrion" "Science (Biology)"
      "What organelle is the \x27powerhouse\x27 of the cell?" "Mitochondrion" rfl).2.2.2
    (.obj [("type", .str "standard")]) (.str "standard") rfl (by decide) rfl (by decide)

/-- C9: the fallback loop walks the shuffled generator sequence in order and
returns the output of the first generator whose question and answer are both
truthy, whatever generators follow it; an unavailable generator is skipped
(the loop on the rest is unchanged) and each pool lists every generator once,
so a skipped generator is never invoked again in the same request
(src/app.py lines 242-247). -/
theorem fallback_loop_first_success :
    (∀ (env : Env) (rand : Rand) (pre : List GenTag) (g : GenTag) (post : List GenTag)
        (q a c : Json),
      (∀ g' ∈ pre, ∃ q' a' c', runGen env rand g' = .ok (q', a', c') ∧
        ¬(pyTruthy q' = true ∧ pyTruthy a' = true)) →
      runGen env rand g = .ok (q, a, c) → pyTruthy q = true → pyTruthy a = true →
      pickLoop env rand (pre ++ g :: post) = .ok (q, a, c))
    ∧ (∀ (env : Env) (rand : Rand) (g : GenTag) (gs : List GenTag) (q a c : Json),
        runGen env rand g = .ok (q, a, c) → ¬(pyTruthy q = true ∧ pyTruthy a = true) →
        pickLoop env rand (g :: gs) = pickLoop env rand gs)
    ∧ (∀ d, (poolFor d).Nodup) := by
  refine ⟨?_, ?_, ?_⟩
  · exact fun env rand pre g post q a c h1 h2 h3 h4 => pickLoop_first env rand pre g post h1 h2 h3 h4
  · exact fun env rand g gs q a c h1 h2 => pickLoop_skip env rand g gs h1 h2
  · intro d
    unfold poolFor
    repeat' split
    all_goals decide

theorem fallback_loop_first_success_witness :
    pickLoop envAllDown randId
        ([GenTag.opentdb "hard"] ++ GenTag.crossword "hard" :: [GenTag.capital "hard"]) =
      .ok (.str "Crossword-style clue: Shakespearean \x27before\x27 (3).", .str "ERE",
        .str "Crossword") :=
  fallback_loop_first_success.1 envAllDown randId [.opentdb "hard"] (.crossword "hard")
    [.capital "hard"] _ _ _
    (by
      intro g' hg'
      simp only [List.mem_singleton] at hg'
      subst hg'
      exact ⟨.null, .null, .null, rfl, by simp [pyTruthy]⟩)
    rfl (by decide) (by decide)

/-- C10: at the Easy and Medium tiers, whenever no generator raises, the
result of `pick_generator` is the successful output of one of the pool
generators — the sentinel branch is never taken — because the lyric
generator is in both pools, reads no network resource (its output does not
depend on the environment) and always returns a truthy question and answer
(src/app.py lines 170-184 and 211-226). -/
theorem easy_medium_never_sentinel :
    (∀ (env : Env) (rand : Rand) (label : String),
      (diffKeyOf label = "easy" ∨ diffKeyOf label = "medium") →
      (rand.shuffle (poolFor (diffKeyOf label))).Perm (poolFor (diffKeyOf label)) →
      (∀ g ∈ rand.shuffle (poolFor (diffKeyOf label)), ∃ r, runGen env rand g = .ok r) →
      ∃ q a c g, pick_generator env rand label = .ok (q, a, c) ∧
        g ∈ rand.shuffle (poolFor (diffKeyOf label)) ∧ runGen env rand g = .ok (q, a, c) ∧
        pyTruthy q = true ∧ pyTruthy a = true)
    ∧ (∀ (env env' : Env) (rand : Rand), runGen env rand .lyric = runGen env' rand .lyric)
    ∧ (∀ (env : Env) (rand : Rand), ∃ q a c, runGen env rand .lyric = .ok (q, a, c) ∧
        pyTruthy q = true ∧ pyTruthy a = true) := by
  refine ⟨?_, ?_, ?_⟩
  · intro env rand label hkey hperm hok
    have hl : GenTag.lyric ∈ poolFor (diffKeyOf label) := by
      rcases hkey with hk | hk <;> rw [hk] <;> decide
    exact pickLoop_reaches_usable env rand _ (hperm.mem_iff.mpr hl) hok
  · intro env env' rand
    rfl
  · intro env rand
    obtain ⟨q, a, c, hr, hq, ha, _⟩ := music_usable env rand
    exact ⟨q, a, c, hr, hq, ha⟩

theorem easy_medium_never_sentinel_witness :
    ∃ q a c g, pick_generator envAllDown randId "Baby Barbara" = .ok (q, a, c) ∧
      g ∈ randId.shuffle (poolFor (diffKeyOf "Baby Barbara")) ∧
      runGen envAllDown randId g = .ok (q, a, c) ∧
      pyTruthy q = true ∧ pyTruthy a = true :=
  easy_medium_never_sentinel.1 envAllDown randId "Baby Barbara" (Or.inl rfl)
    (List.Perm.refl _)
    (by
      intro g hg
      have hord : randId.shuffle (poolFor (diffKeyOf "Baby Barbara")) =
          [.opentdb "easy", .capital "easy", .fact "easy", .lyric, .crossword "easy"] := rfl
      rw [hord] at hg
      simp only [List.mem_cons, List.not_mem_nil, or_false] at hg
      rcases hg with rfl | rfl | rfl | rfl | rfl
      · exact ⟨(.null, .null, .null), rfl⟩
      · exact ⟨(.null, .null, .null), rfl⟩
      · exact ⟨(.null, .null, .null), rfl⟩
      · exact ⟨_, rfl⟩
      · exact ⟨_, rfl⟩)

theorem isWFCountry_destruct {c : Json} (h : isWFCountry c = true) :
    ∃ kvs, c = .obj kvs ∧
      (∃ nkvs s, kvs.lookup "name" = some (.obj nkvs) ∧ nkvs.lookup "common" = some (.str s))
      ∧ (kvs.lookup "population" = none ∨ ∃ n, kvs.lookup "population" = some (.num n))
      ∧ (kvs.lookup "region" = none ∨ ∃ s, kvs.lookup "region" = some (.str s)) := by
  obtain ⟨kvs, rfl⟩ : ∃ kvs, c = .obj kvs := by
    cases c <;> simp_all [isWFCountry]
  unfold isWFCountry at h
  rw [Bool.and_eq_true, Bool.and_eq_true] at h
  obtain ⟨⟨h1, h2⟩, h3⟩ := h
  refine ⟨kvs, rfl, ?_, ?_, ?_⟩
  · split at h1
    · next nkvs heq =>
      split at h1
      · next s heq2 => exact ⟨nkvs, s, heq, heq2⟩
      · simp at h1
    · simp at h1
  · split at h2
    · next heq => exact Or.inl heq
    · next n heq => exact Or.inr ⟨n, heq⟩
    · simp at h2
  · split at h3
    · next heq => exact Or.inl heq
    · next s heq => exact Or.inr ⟨s, heq⟩
    · simp at h3

theorem pop_field_wf {kvs : List (String × Json)}
    (hp : kvs.lookup "population" = none ∨ ∃ n, kvs.lookup "population" = some (.num n)) :
    ∃ p, pyGet (.obj kvs) "population" = .ok p ∧ pyOrInt p 0 = .num (popOf (.obj kvs)) := by
  rcases hp with hp | ⟨n, hp⟩
  · exact ⟨.null, by simp [pyGet, hp], by simp [pyOrInt, pyTruthy, popOf, hp]⟩
  · refine ⟨.num n, by simp [pyGet, hp], ?_⟩
    by_cases hn : n = 0
    · subst hn; simp [pyOrInt, pyTruthy, popOf, hp]
    · simp [pyOrInt, pyTruthy, popOf, hp, hn]

theorem region_field_wf {kvs : List (String × Json)}
    (hr : kvs.lookup "region" = none ∨ ∃ s, kvs.lookup "region" = some (.str s)) :
    ∃ r, pyGet (.obj kvs) "region" = .ok r ∧
      pyEq r (.str "Oceania") = decide (regionOf (.obj kvs) = some "Oceania") ∧
      pyEq r (.str "Americas") = decide (regionOf (.obj kvs) = some "Americas") := by
  rcases hr with hr | ⟨s, hr⟩
  · exact ⟨.null, by simp [pyGet, hr], by simp [pyEq, regionOf, hr], by simp [pyEq, regionOf, hr]⟩
  · refine ⟨.str s, by simp [pyGet, hr], ?_, ?_⟩
    · by_cases hs : s = "Oceania" <;> simp [pyEq, regionOf, hr, hs]
    · by_cases hs : s = "Americas" <;> simp [pyEq, regionOf, hr, hs]

theorem easyNamePred_wf {c : Json} (h : isWFCountry c = true) :
    easyNamePred c = .ok (specEasyPrimary c) := by
  obtain ⟨kvs, rfl, ⟨nkvs, s, hn, hc⟩, _, _⟩ := isWFCountry_destruct h
  simp [easyNamePred, Json.getItem, pyGet, hn, hc, specEasyPrimary, commonNameOf, pyEq]

theorem popGe20MPred_wf {c : Json} (h : isWFCountry c = true) :
    popGe20MPred c = .ok (specEasySecondary c) := by
  obtain ⟨kvs, rfl, _, hpop, _⟩ := isWFCountry_destruct h
  obtain ⟨p, hp, hor⟩ := pop_field_wf hpop
  simp [popGe20MPred, hp, hor, pyGeJsonInt, jsonNum?, specEasySecondary]

theorem mediumPred_wf {c : Json} (h : isWFCountry c = true) :
    mediumPred c = .ok (specMediumP c) := by
  obtain ⟨kvs, rfl, _, hpop, _⟩ := isWFCountry_destruct h
  obtain ⟨p, hp, hor⟩ := pop_field_wf hpop
  by_cases h1 : (5000000 : Int) ≤ popOf (.obj kvs) <;>
    by_cases h2 : popOf (.obj kvs) < 20000000 <;>
      simp [mediumPred, hp, hor, pyLeIntJson, pyLtJsonInt, jsonNum?, specMediumP, h1, h2]

theorem hardPred_wf {c : Json} (h : isWFCountry c = true) :
    hardPred c = .ok (specHardP c) := by
  obtain ⟨kvs, rfl, _, hpop, hreg⟩ := isWFCountry_destruct h
  obtain ⟨p, hp, hor⟩ := pop_field_wf hpop
  obtain ⟨r, hr, hOc, _⟩ := region_field_wf hreg
  by_cases h1 : popOf (.obj kvs) < 5000000 <;>
    simp [hardPred, hp, hor, hr, hOc, pyLtJsonInt, jsonNum?, specHardP, h1]

theorem expertPred_wf {c : Json} (h : isWFCountry c = true) :
    expertPred c = .ok (specExpertP c) := by
  obtain ⟨kvs, rfl, _, hpop, hreg⟩ := isWFCountry_destruct h
  obtain ⟨p, hp, hor⟩ := pop_field_wf hpop
  obtain ⟨r, hr, hOc, hAm⟩ := region_field_wf hreg
  by_cases h1 : popOf (.obj kvs) < 1000000 <;>
    simp [expertPred, hp, hor, hr, hOc, hAm, pyLtJsonInt, jsonNum?, specExpertP, h1]

theorem pyFilterM_eq_filter {p : Json → Except PyErr Bool} {f : Json → Bool}
    {xs : List Json} (h : ∀ x ∈ xs, p x = .ok (f x)) :
    pyFilterM p xs = .ok (xs.filter f) := by
  induction xs with
  | nil => rfl
  | cons x xs ih =>
    have hx := h x (List.mem_cons_self x xs)
    have hrest := ih (fun y hy => h y (List.mem_cons_of_mem _ hy))
    by_cases hf : f x <;> simp [pyFilterM, hx, hrest, List.filter_cons, hf]

theorem usedPoolM_wf (countries : List Json) (h : ∀ c ∈ countries, isWFCountry c = true)
    (d : String) : usedPoolM d countries = .ok (specUsedPool d countries) := by
  have he1 := pyFilterM_eq_filter (fun c hc => easyNamePred_wf (h c hc))
  have he2 := pyFilterM_eq_filter (fun c hc => popGe20MPred_wf (h c hc))
  have hm := pyFilterM_eq_filter (fun c hc => mediumPred_wf (h c hc))
  have hh := pyFilterM_eq_filter (fun c hc => hardPred_wf (h c hc))
  have hx := pyFilterM_eq_filter (fun c hc => expertPred_wf (h c hc))
  unfold usedPoolM specUsedPool easyPoolM mediumPoolM hardPoolM expertPoolM
  by_cases h1 : d = "easy"
  · by_cases hp1 : (countries.filter specEasyPrimary).isEmpty <;>
      by_cases hp2 : (countries.filter specEasySecondary).isEmpty <;>
        simp [h1, he1, he2, hp1, hp2]
  · by_cases h2 : d = "medium"
    · by_cases hp : (countries.filter specMediumP).isEmpty <;> simp [h1, h2, hm, hp]
    · by_cases h3 : d = "hard"
      · by_cases hp : (countries.filter specHardP).isEmpty <;> simp [h1, h2, h3, hh, hp]
      · by_cases hp : (countries.filter specExpertP).isEmpty <;> simp [h1, h2, h3, hx, hp]

theorem chooseByTier_ok {d : String} {idx : Nat} {countries pool : List Json}
    (h : usedPoolM d countries = .ok pool) :
    chooseByTier d idx countries = pyChoice idx pool := by
  unfold usedPoolM at h
  unfold chooseByTier choose_easy choose_medium choose_hard choose_expert
  by_cases h1 : d = "easy"
  · rw [if_pos h1] at h
    rw [if_pos h1]
    cases he : easyPoolM countries with
    | error e => rw [he] at h; exact Except.noConfusion h
    | ok p =>
      rw [he] at h
      have hp := Except.ok.inj h
      show (if p.isEmpty = true then pyChoice idx countries else pyChoice idx p) =
        pyChoice idx pool
      rw [← hp]
      by_cases hp2 : p.isEmpty <;> simp [hp2]
  · rw [if_neg h1] at h
    rw [if_neg h1]
    by_cases h2 : d = "medium"
    · rw [if_pos h2] at h
      rw [if_pos h2]
      cases he : mediumPoolM countries with
      | error e => rw [he] at h; exact Except.noConfusion h
      | ok p =>
        rw [he] at h
        show pyChoice idx (if p.isEmpty = true then countries else p) = pyChoice idx pool
        rw [Except.ok.inj h]
    · rw [if_neg h2] at h
      rw [if_neg h2]
      by_cases h3 : d = "hard"
      · rw [if_pos h3] at h
        rw [if_pos h3]
        cases he : hardPoolM countries with
        | error e => rw [he] at h; exact Except.noConfusion h
        | ok p =>
          rw [he] at h
          show pyChoice idx (if p.isEmpty = true then countries else p) = pyChoice idx pool
          rw [Except.ok.inj h]
      · rw [if_neg h3] at h
        rw [if_neg h3]
        cases he : expertPoolM countries with
        | error e => rw [he] at h; exact Except.noConfusion h
        | ok p =>
          rw [he] at h
          show pyChoice idx (if p.isEmpty = true then countries else p) = pyChoice idx pool
          rw [Except.ok.inj h]

theorem chooseByTier_err {d : String} {idx : Nat} {countries : List Json} {e : PyErr}
    (h : usedPoolM d countries = .error e) : chooseByTier d idx countries = .error e := by
  unfold usedPoolM at h
  unfold chooseByTier choose_easy choose_medium choose_hard choose_expert
  by_cases h1 : d = "easy"
  · rw [if_pos h1] at h
    rw [if_pos h1]
    cases he : easyPoolM countries with
    | error e2 =>
      rw [he] at h
      rw [Except.error.inj h]
    | ok p => rw [he] at h; exact Except.noConfusion h
  · rw [if_neg h1] at h
    rw [if_neg h1]
    by_cases h2 : d = "medium"
    · rw [if_pos h2] at h
      rw [if_pos h2]
      cases he : mediumPoolM countries with
      | error e2 => rw [he] at h; rw [Except.error.inj h]
      | ok p => rw [he] at h; exact Except.noConfusion h
    · rw [if_neg h2] at h
      rw [if_neg h2]
      by_cases h3 : d = "hard"
      · rw [if_pos h3] at h
        rw [if_pos h3]
        cases he : hardPoolM countries with
        | error e2 => rw [he] at h; rw [Except.error.inj h]
        | ok p => rw [he] at h; exact Except.noConfusion h
      · rw [if_neg h3] at h
        rw [if_neg h3]
        cases he : expertPoolM countries with
        | error e2 => rw [he] at h; rw [Except.error.inj h]
        | ok p => rw [he] at h; exact Except.noConfusion h

/-- C6: for well-formed candidate country records the capital generator
partitions exactly as the spec describes: Easy is the fixed allow-list with
the populous fallback, Medium is population in [5,000,000, 20,000,000), Hard
is population below 5,000,000 or region Oceania, Expert is population below
1,000,000 or region Oceania or Americas, and the partition actually handed to
`random.choice` falls back to the full candidate set whenever the chosen
partition is empty (src/app.py lines 81-137). -/
theorem capital_partitions_match_spec :
    ∀ countries : List Json, (∀ c ∈ countries, isWFCountry c = true) →
      pyFilterM easyNamePred countries = .ok (countries.filter specEasyPrimary)
      ∧ pyFilterM popGe20MPred countries = .ok (countries.filter specEasySecondary)
      ∧ mediumPoolM countries = .ok (countries.filter specMediumP)
      ∧ hardPoolM countries = .ok (countries.filter specHardP)
      ∧ expertPoolM countries = .ok (countries.filter specExpertP)
      ∧ (∀ d, usedPoolM d countries = .ok (specUsedPool d countries))
      ∧ (∀ d idx, chooseByTier d idx countries = pyChoice idx (specUsedPool d countries)) := by
  intro countries h
  exact ⟨pyFilterM_eq_filter (fun c hc => easyNamePred_wf (h c hc)),
    pyFilterM_eq_filter (fun c hc => popGe20MPred_wf (h c hc)),
    pyFilterM_eq_filter (fun c hc => mediumPred_wf (h c hc)),
    pyFilterM_eq_filter (fun c hc => hardPred_wf (h c hc)),
    pyFilterM_eq_filter (fun c hc => expertPred_wf (h c hc)),
    usedPoolM_wf countries h,
    fun d idx => chooseByTier_ok (usedPoolM_wf countries h d)⟩

theorem capital_partitions_match_spec_witness :
    mediumPoolM [franceRec, palauRec] = .ok ([franceRec, palauRec].filter specMediumP)
    ∧ chooseByTier "expert" 0 [franceRec, palauRec] =
        pyChoice 0 (specUsedPool "expert" [franceRec, palauRec]) :=
  ⟨(capital_partitions_match_spec [franceRec, palauRec] (by decide)).2.2.1,
   (capital_partitions_match_spec [franceRec, palauRec] (by decide)).2.2.2.2.2.2 "expert" 0⟩

theorem capitalFromCountries_err {d : String} {idx : Nat} {countries : List Json} {e : PyErr}
    (hch : chooseByTier d idx countries = .error e) :
    capitalFromCountries d idx countries = .error e := by
  unfold capitalFromCountries
  rw [hch]

theorem capitalFromCountries_eq_of_choose {d : String} {idx : Nat} {countries : List Json}
    {rec : Json} (hch : chooseByTier d idx countries = .ok rec) :
    capitalFromCountries d idx countries =
      match rec.getItem "name" with
      | .error e => .error e
      | .ok nameObj =>
        match pyGetD nameObj "common" (.str "this country") with
        | .error e => .error e
        | .ok country =>
          match rec.getItem "capital" with
          | .error e => .error e
          | .ok capList =>
            match pyIndex capList 0 with
            | .error e => .error e
            | .ok capital =>
              .ok (.str ("What is the capital of " ++ pyStr country ++ "?"), capital,
                .str "Geography (Capitals)") := by
  unfold capitalFromCountries
  rw [hch]

/-- C7: the partition the capital generator draws from is never empty when
the candidate set is non-empty (the fallback guarantees it), and whenever the
generator builds a record, its answer is the first element of the capital
list of some record belonging to the partition actually selected for that
tier, after the empty-partition fallback (src/app.py lines 98-137). -/
theorem capital_answer_from_selected_partition :
    (∀ (d : String) (countries pool : List Json), countries ≠ [] →
      usedPoolM d countries = .ok pool → pool ≠ [])
    ∧ (∀ (d : String) (idx : Nat) (countries : List Json) (q a c : Json),
        capitalFromCountries d idx countries = .ok (q, a, c) →
        ∃ pool rec capj, usedPoolM d countries = .ok pool ∧ rec ∈ pool ∧
          Json.getItem rec "capital" = .ok capj ∧ pyIndex capj 0 = .ok a) := by
  constructor
  · intro d countries pool hne h
    unfold usedPoolM at h
    repeat' split at h
    all_goals first
      | exact Except.noConfusion h
      | (have hp := Except.ok.inj h
         rw [← hp]
         exact hne)
      | (have hp := Except.ok.inj h
         rw [← hp]
         rename_i hf
         exact fun hc => hf (by rw [hc]; rfl))
  · intro d idx countries q a c h
    cases hch : chooseByTier d idx countries with
    | error e => rw [capitalFromCountries_err hch] at h; exact Except.noConfusion h
    | ok rec =>
      rw [capitalFromCountries_eq_of_choose hch] at h
      cases husd : usedPoolM d countries with
      | error e =>
        rw [chooseByTier_err husd] at hch
        exact Except.noConfusion hch
      | ok pool =>
        rw [chooseByTier_ok husd] at hch
        have hmem := pyChoice_mem hch
        repeat' split at h
        all_goals first
          | exact Except.noConfusion h
          | (have hp := Except.ok.inj h
             simp only [Prod.mk.injEq] at hp
             obtain ⟨hq2, ha2, hc2⟩ := hp
             subst ha2
             exact ⟨pool, rec, _, rfl, hmem, by assumption, by assumption⟩)

theorem capital_answer_from_selected_partition_witness :
    ([franceRec] : List Json) ≠ []
    ∧ ∃ pool rec capj, usedPoolM "medium" [franceRec] = .ok pool ∧ rec ∈ pool ∧
        Json.getItem rec "capital" = .ok capj ∧ pyIndex capj 0 = .ok (.str "Paris") :=
  ⟨capital_answer_from_selected_partition.1 "medium" [franceRec] [franceRec]
      (List.cons_ne_nil _ _) rfl,
   capital_answer_from_selected_partition.2 "medium" 0 [franceRec]
      (.str "What is the capital of France?") (.str "Paris") (.str "Geography (Capitals)") rfl⟩

end TriviaBot
